import Mathlib

/-!
Shallow embedding of the flight-booking subsystem of `src/final.py`
(classes `Flight`, `Passenger`, `Airport`, `Payment`, `Ticket`,
`FlightManager`) together with theorems settling the specification
claims about it.

Modelling conventions:
* A Python `dict` keyed by strings is an insertion-ordered association
  list with unique keys; `pyGet` is `dict.get`, `pySet` is item
  assignment (update in place when the key exists, append otherwise) —
  exactly CPython's dict semantics for the operations the code uses.
* Python objects are mutable references.  `Ticket` stores references to
  its `Flight` and `Passenger`; in the value-level embedding these
  references are represented by their registry keys (`flight_number`,
  `passenger_id`), which is what the booking code reads from them.
* `datetime` values never influence control flow; they are modelled as
  opaque `Nat` timestamps, with `datetime.now()` passed in as an
  explicit `now` argument.
* The float literal `200.0` is the exact rational `200`, modelled in `ℚ`.
-/

namespace FlightBooking

/-- Lookup in a Python dict modelled as an association list: the value at
the first (and, for dicts built by `pySet`, only) occurrence of the key. -/
def pyGet {α : Type} (d : List (String × α)) (k : String) : Option α :=
  match d with
  | [] => none
  | (k', v) :: rest => if k' = k then some v else pyGet rest k

/-- Lookup with a default, Python's `dict.get(k, dflt)`. -/
def pyGetD {α : Type} (d : List (String × α)) (k : String) (dflt : α) : α :=
  (pyGet d k).getD dflt

/-- Item assignment `d[k] = v` on a Python dict: replaces the value in
place when the key is present (keeping insertion order), appends a new
entry otherwise. -/
def pySet {α : Type} (d : List (String × α)) (k : String) (v : α) :
    List (String × α) :=
  match d with
  | [] => [(k, v)]
  | (k', v') :: rest =>
      if k' = k then (k, v) :: rest else (k', v') :: pySet rest k v

/-- Airport: immutable reference data (`Airport.__init__`). -/
structure Airport where
  code : String
  name : String
  city : String
  country : String
deriving DecidableEq

/-- Flight: number, endpoints, times and the seat map
(`Flight.__init__`); `seats` maps seat id to availability, `True`
meaning available. -/
structure Flight where
  flight_number : String
  origin : Airport
  destination : Airport
  departure_time : Nat
  arrival_time : Nat
  seats : List (String × Bool)
deriving DecidableEq

/-- The seat letters `['A', 'B', 'C', 'D', 'E', 'F']`. -/
def seatLetters : List String := ["A", "B", "C", "D", "E", "F"]

/-- Seat-map generation `Flight._initialize_seats`: for each row in
`range(1, 31)` and each letter, the key `f"{row}{letter}"` mapped to
`True` (available). -/
def initialize_seats : List (String × Bool) :=
  (List.range' 1 30).flatMap fun row =>
    seatLetters.map fun letter => (Nat.repr row ++ letter, true)

/-- Flight construction `Flight.__init__`: stores the fields and the
freshly generated seat map. -/
def Flight.make (fn : String) (o d : Airport) (dep arr : Nat) : Flight :=
  ⟨fn, o, d, dep, arr, initialize_seats⟩

/-- `Flight.is_seat_available`: `self.seats.get(seat_number, False)`. -/
def Flight.is_seat_available (f : Flight) (seat_number : String) : Bool :=
  pyGetD f.seats seat_number false

/-- `Flight.book_seat`: if the seat is available, mark it unavailable and
return `True`; otherwise return `False` without touching the seat map.
The mutated object is returned alongside the boolean. -/
def Flight.book_seat (f : Flight) (seat_number : String) : Bool × Flight :=
  if f.is_seat_available seat_number then
    (true, { f with seats := pySet f.seats seat_number false })
  else
    (false, f)

/-- `Flight.get_available_seats`: the keys whose value is `True`, in
dict order. -/
def Flight.get_available_seats (f : Flight) : List String :=
  (f.seats.filter fun kv => kv.2).map Prod.fst

/-- `PaymentStatus` enumeration. -/
inductive PaymentStatus where
  | PENDING
  | COMPLETED
  | FAILED
deriving DecidableEq

/-- Payment (`Payment.__init__` fields). -/
structure Payment where
  amount : ℚ
  payment_method : String
  status : PaymentStatus
  timestamp : Nat
deriving DecidableEq

/-- `Payment.__init__`: created `PENDING` with the current time. -/
def Payment.make (amount : ℚ) (payment_method : String) (now : Nat) :
    Payment :=
  ⟨amount, payment_method, PaymentStatus.PENDING, now⟩

/-- `Payment.process`: simulated processing — unconditionally sets the
status to `COMPLETED` and returns `True`.  The updated object is
returned alongside the boolean. -/
def Payment.process (p : Payment) : Bool × Payment :=
  (true, { p with status := PaymentStatus.COMPLETED })

/-- Ticket (`Ticket.__init__` fields).  The `flight` and `passenger`
object references are represented by their registry keys. -/
structure Ticket where
  ticket_number : String
  flight_number : String
  passenger_id : String
  seat_number : String
  payment : Payment
  status : String
deriving DecidableEq

/-- Passenger (`Passenger.__init__` fields); `tickets` is the ordered
ticket history. -/
structure Passenger where
  passenger_id : String
  name : String
  email : String
  phone : String
  tickets : List Ticket
deriving DecidableEq

/-- `Passenger.__init__`: stores the fields with an empty ticket list. -/
def Passenger.make (pid name email phone : String) : Passenger :=
  ⟨pid, name, email, phone, []⟩

/-- `Passenger.add_ticket`: appends to the ticket history. -/
def Passenger.add_ticket (p : Passenger) (t : Ticket) : Passenger :=
  { p with tickets := p.tickets ++ [t] }

/-- `Ticket.__init__`: stores the fields; the status is `"CONFIRMED"`
when the payment is `COMPLETED`, else `"PENDING"`. -/
def Ticket.make (ticket_number : String) (flight : Flight)
    (passenger : Passenger) (seat_number : String) (payment : Payment) :
    Ticket :=
  ⟨ticket_number, flight.flight_number, passenger.passenger_id,
    seat_number, payment,
    if payment.status = PaymentStatus.COMPLETED then "CONFIRMED"
    else "PENDING"⟩

/-- The registry `FlightManager`: flights, passengers and tickets, each
keyed by its id. -/
structure FlightManager where
  flights : List (String × Flight)
  passengers : List (String × Passenger)
  tickets : List (String × Ticket)
deriving DecidableEq

/-- `FlightManager.__init__`: three empty dicts. -/
def FlightManager.init : FlightManager := ⟨[], [], []⟩

/-- `FlightManager.add_flight`: register by flight number
(overwriting silently on a duplicate key). -/
def FlightManager.add_flight (m : FlightManager) (f : Flight) :
    FlightManager :=
  { m with flights := pySet m.flights f.flight_number f }

/-- `FlightManager.add_passenger`: register by passenger id. -/
def FlightManager.add_passenger (m : FlightManager) (p : Passenger) :
    FlightManager :=
  { m with passengers := pySet m.passengers p.passenger_id p }

/-- Python's `str.lower()`: character-wise lowercasing of the string
(ASCII case mapping, which covers every city name in scope). -/
def pyLower (s : String) : String := ⟨s.data.map Char.toLower⟩

/-- `FlightManager.search_flights`: the flights, in registry order,
whose origin and destination cities both match case-insensitively. -/
def FlightManager.search_flights (m : FlightManager)
    (origin_city destination_city : String) : List Flight :=
  (m.flights.map Prod.snd).filter fun flight =>
    (pyLower flight.origin.city == pyLower origin_city) &&
    (pyLower flight.destination.city == pyLower destination_city)

/-- `FlightManager.book_flight`: resolve passenger and flight, check the
seat, process a fixed-price payment, book the seat, then mint, store and
return the ticket.  Every failure path returns `None`; because `Flight`
objects are mutated only through `book_seat`, which changes nothing when
it returns `False`, each `None` path leaves the registry value
unchanged. -/
def FlightManager.book_flight (m : FlightManager)
    (passenger_id flight_number seat_number payment_method : String)
    (now : Nat) : Option Ticket × FlightManager :=
  match pyGet m.passengers passenger_id, pyGet m.flights flight_number with
  | some passenger, some flight =>
    if !(flight.is_seat_available seat_number) then (none, m)
    else
      let payment := Payment.make 200 payment_method now
      let pr := payment.process
      if pr.1 then
        let br := flight.book_seat seat_number
        if br.1 then
          let flight' := br.2
          let ticket_number := "TKT" ++ Nat.repr (m.tickets.length + 1)
          let ticket :=
            Ticket.make ticket_number flight' passenger seat_number pr.2
          let passenger' := passenger.add_ticket ticket
          (some ticket,
            { flights := pySet m.flights flight_number flight',
              passengers := pySet m.passengers passenger_id passenger',
              tickets := pySet m.tickets ticket_number ticket })
        else (none, m)
      else (none, m)
  | _, _ => (none, m)

/-- Observation function for the payment step of `book_flight`: the list
of `Payment` objects constructed along the control path taken for the
given arguments.  It mirrors `book_flight`: no `Payment` is created
before the lookups and the seat-availability check have passed. -/
def FlightManager.book_flight_payments (m : FlightManager)
    (passenger_id flight_number seat_number payment_method : String)
    (now : Nat) : List Payment :=
  match pyGet m.passengers passenger_id, pyGet m.flights flight_number with
  | some _, some flight =>
    if !(flight.is_seat_available seat_number) then []
    else [Payment.make 200 payment_method now]
  | _, _ => []

/-- Applying a sequence of `book_seat` calls to a flight object — the
only seat-map mutations the public interface ever performs. -/
def applySeatOps (f : Flight) (ops : List String) : Flight :=
  ops.foldl (fun g s => (g.book_seat s).2) f

/-- Registry states reachable through the public interface, starting
from `FlightManager.__init__`. -/
inductive Reachable : FlightManager → Prop where
  | init : Reachable FlightManager.init
  | add_flight {m : FlightManager} (f : Flight) :
      Reachable m → Reachable (m.add_flight f)
  | add_passenger {m : FlightManager} (p : Passenger) :
      Reachable m → Reachable (m.add_passenger p)
  | book_flight {m : FlightManager}
      (pid fn seat method : String) (now : Nat) :
      Reachable m → Reachable (m.book_flight pid fn seat method now).2

/-- The ticket numbers `"TKT1", …, "TKTn"` in order. -/
def ticketKeys (n : Nat) : List String :=
  (List.range n).map fun i => "TKT" ++ Nat.repr (i + 1)

/-- Invariant of reachable registries: the ticket table's keys are
exactly `"TKT1", …, "TKTn"` in insertion order, `n` its size. -/
def TicketInv (m : FlightManager) : Prop :=
  m.tickets.map Prod.fst = ticketKeys m.tickets.length

/-- Decimal digit value of the characters produced by `Nat.digitChar`
on `0`–`9`. -/
def ofDigit (c : Char) : Nat :=
  if c = '0' then 0 else if c = '1' then 1 else if c = '2' then 2 else
  if c = '3' then 3 else if c = '4' then 4 else if c = '5' then 5 else
  if c = '6' then 6 else if c = '7' then 7 else if c = '8' then 8 else
  if c = '9' then 9 else 0

/-- Value of a decimal digit string, most significant first. -/
def evalDigits (l : List Char) : Nat :=
  l.foldl (fun a c => 10 * a + ofDigit c) 0

/- Concrete fixtures used by the witness theorems. -/

/-- Sample airport (from `main`). -/
def jfk : Airport := ⟨"JFK", "John F Kennedy", "New York", "USA"⟩

/-- Sample airport (from `main`). -/
def lhr : Airport := ⟨"LHR", "Heathrow", "London", "UK"⟩

/-- Sample flight FL101 from New York to London. -/
def flight101 : Flight := Flight.make "FL101" jfk lhr 0 10

/-- Sample passenger P1. -/
def pass1 : Passenger := Passenger.make "P1" "Ada" "ada@x.io" "555"

/-- Registry holding `flight101` and `pass1`, built through the public
interface. -/
def mgr1 : FlightManager :=
  (FlightManager.init.add_flight flight101).add_passenger pass1


/-- The ticket minted by a successful `book_flight` on registry `m` for
passenger `p`, flight `f`, the given seat and payment data: number
`"TKT{len(tickets)+1}"`, the seat-booked flight, the processed payment. -/
def mintedTicket (m : FlightManager) (p : Passenger) (f : Flight)
    (seat method : String) (now : Nat) : Ticket :=
  Ticket.make ("TKT" ++ Nat.repr (m.tickets.length + 1)) (f.book_seat seat).2
    p seat (Payment.make 200 method now).process.2

/-- The registry state after a successful `book_flight`: the flight's
seat booked, the ticket appended to the passenger's history and stored
in the ticket table. -/
def bookedState (m : FlightManager) (pid fn seat method : String)
    (now : Nat) (p : Passenger) (f : Flight) : FlightManager :=
  { flights := pySet m.flights fn (f.book_seat seat).2,
    passengers := pySet m.passengers pid
      (p.add_ticket (mintedTicket m p f seat method now)),
    tickets := pySet m.tickets ("TKT" ++ Nat.repr (m.tickets.length + 1))
      (mintedTicket m p f seat method now) }

/-! ### Association-list (Python dict) lemmas -/

theorem pyGet_pySet_self {α : Type} (d : List (String × α)) (k : String)
    (v : α) : pyGet (pySet d k v) k = some v := by
  induction d with
  | nil => simp [pySet, pyGet]
  | cons hd tl ih =>
      obtain ⟨k', v'⟩ := hd
      by_cases h : k' = k
      · simp [pySet, pyGet, h]
      · simp [pySet, pyGet, h, ih]

theorem pyGet_pySet_ne {α : Type} (d : List (String × α)) (k k' : String)
    (v : α) (h : k' ≠ k) : pyGet (pySet d k v) k' = pyGet d k' := by
  induction d with
  | nil => simp [pySet, pyGet, Ne.symm h]
  | cons hd tl ih =>
      obtain ⟨k₀, v₀⟩ := hd
      by_cases h₀ : k₀ = k
      · subst h₀
        simp [pySet, pyGet, Ne.symm h]
      · simp [pySet, pyGet, h₀, ih]

theorem pyGet_eq_none_iff {α : Type} (d : List (String × α)) (k : String) :
    pyGet d k = none ↔ k ∉ d.map Prod.fst := by
  induction d with
  | nil => simp [pyGet]
  | cons hd tl ih =>
      obtain ⟨k', v'⟩ := hd
      by_cases h : k' = k
      · simp [pyGet, h]
      · simp [pyGet, h, ih, Ne.symm h]

theorem pySet_of_absent {α : Type} (d : List (String × α)) (k : String)
    (v : α) (h : pyGet d k = none) : pySet d k v = d ++ [(k, v)] := by
  induction d with
  | nil => simp [pySet]
  | cons hd tl ih =>
      obtain ⟨k', v'⟩ := hd
      by_cases h' : k' = k
      · simp [pyGet, h'] at h
      · simp [pyGet, h'] at h
        simp [pySet, h', ih h]

theorem length_pySet_absent {α : Type} (d : List (String × α)) (k : String)
    (v : α) (h : pyGet d k = none) :
    (pySet d k v).length = d.length + 1 := by
  rw [pySet_of_absent d k v h]
  simp


/-! ### Injectivity of the decimal numeral `Nat.repr`, used for the
`"TKT{n}"` ticket numbers -/

theorem ofDigit_digitChar : ∀ d : Nat, d < 10 →
    ofDigit (Nat.digitChar d) = d := by decide

theorem toDigitsCore_acc (fuel : Nat) : ∀ (n : Nat) (ds : List Char),
    Nat.toDigitsCore 10 fuel n ds = Nat.toDigitsCore 10 fuel n [] ++ ds := by
  induction fuel with
  | zero => intro n ds; simp [Nat.toDigitsCore]
  | succ fuel ih =>
      intro n ds
      simp only [Nat.toDigitsCore]
      by_cases h : n / 10 = 0
      · simp [h]
      · rw [if_neg h, if_neg h, ih (n / 10) [Nat.digitChar (n % 10)],
          ih (n / 10) (Nat.digitChar (n % 10) :: ds)]
        simp

theorem evalDigits_toDigitsCore (fuel : Nat) : ∀ n : Nat, n < fuel →
    evalDigits (Nat.toDigitsCore 10 fuel n []) = n := by
  induction fuel with
  | zero => intro n h; omega
  | succ fuel ih =>
      intro n h
      simp only [Nat.toDigitsCore]
      by_cases h0 : n / 10 = 0
      · have hn : n < 10 := by omega
        rw [if_pos h0]
        have hmod : n % 10 = n := Nat.mod_eq_of_lt hn
        simp [evalDigits, hmod, ofDigit_digitChar n hn]
      · have hlt : n / 10 < fuel := by
          have : n / 10 < n := Nat.div_lt_self (by omega) (by omega)
          omega
        rw [if_neg h0, toDigitsCore_acc fuel (n / 10) [Nat.digitChar (n % 10)]]
        have := ih (n / 10) hlt
        simp only [evalDigits] at this ⊢
        rw [List.foldl_append, this]
        simp [ofDigit_digitChar (n % 10) (Nat.mod_lt n (by omega))]
        omega

theorem evalDigits_toDigits (n : Nat) :
    evalDigits (Nat.toDigits 10 n) = n :=
  evalDigits_toDigitsCore (n + 1) n (Nat.lt_succ_self n)

theorem repr_injective : ∀ a b : Nat, Nat.repr a = Nat.repr b → a = b := by
  intro a b h
  have hdata : Nat.toDigits 10 a = Nat.toDigits 10 b := by
    have := congrArg String.data h
    simpa [Nat.repr, List.asString] using this
  calc a = evalDigits (Nat.toDigits 10 a) := (evalDigits_toDigits a).symm
    _ = evalDigits (Nat.toDigits 10 b) := by rw [hdata]
    _ = b := evalDigits_toDigits b

theorem tkt_key_injective (a b : Nat)
    (h : "TKT" ++ Nat.repr a = "TKT" ++ Nat.repr b) : a = b := by
  apply repr_injective
  have := congrArg String.data h
  rw [String.data_append, String.data_append] at this
  have h2 := List.append_cancel_left this
  cases hr : Nat.repr a
  cases hs : Nat.repr b
  rw [hr, hs] at h2
  exact congrArg String.mk h2


/-! ### Ticket-number bookkeeping -/

theorem ticketKeys_succ (n : Nat) :
    ticketKeys (n + 1) = ticketKeys n ++ ["TKT" ++ Nat.repr (n + 1)] := by
  simp [ticketKeys, List.range_succ]

theorem ticket_fresh {m : FlightManager} (h : TicketInv m) :
    pyGet m.tickets ("TKT" ++ Nat.repr (m.tickets.length + 1)) = none := by
  rw [pyGet_eq_none_iff, h]
  intro hmem
  simp only [ticketKeys, List.mem_map, List.mem_range] at hmem
  obtain ⟨i, hi, heq⟩ := hmem
  have := tkt_key_injective (i + 1) (m.tickets.length + 1) heq
  omega

theorem mintedTicket_number (m : FlightManager) (p : Passenger) (f : Flight)
    (seat method : String) (now : Nat) :
    (mintedTicket m p f seat method now).ticket_number =
      "TKT" ++ Nat.repr (m.tickets.length + 1) := rfl

theorem mintedTicket_status (m : FlightManager) (p : Passenger) (f : Flight)
    (seat method : String) (now : Nat) :
    (mintedTicket m p f seat method now).status = "CONFIRMED" := rfl

theorem mintedTicket_seat (m : FlightManager) (p : Passenger) (f : Flight)
    (seat method : String) (now : Nat) :
    (mintedTicket m p f seat method now).seat_number = seat := rfl

/-! ### Unfolding `book_flight` -/

theorem book_flight_success_eq (m : FlightManager)
    (pid fn seat method : String) (now : Nat) (p : Passenger) (f : Flight)
    (hp : pyGet m.passengers pid = some p)
    (hf : pyGet m.flights fn = some f)
    (hs : f.is_seat_available seat = true) :
    m.book_flight pid fn seat method now =
      (some (mintedTicket m p f seat method now),
        bookedState m pid fn seat method now p f) := by
  have hbs : (f.book_seat seat).1 = true := by
    simp [Flight.book_seat, hs]
  unfold FlightManager.book_flight
  rw [hp, hf]
  simp [hs, Payment.process, hbs, mintedTicket, bookedState]

theorem book_flight_cases (m : FlightManager)
    (pid fn seat method : String) (now : Nat) :
    m.book_flight pid fn seat method now = (none, m) ∨
    ∃ p f, pyGet m.passengers pid = some p ∧ pyGet m.flights fn = some f ∧
      f.is_seat_available seat = true ∧
      m.book_flight pid fn seat method now =
        (some (mintedTicket m p f seat method now),
          bookedState m pid fn seat method now p f) := by
  cases hp : pyGet m.passengers pid with
  | none =>
      left
      unfold FlightManager.book_flight
      rw [hp]
  | some p =>
      cases hf : pyGet m.flights fn with
      | none =>
          left
          unfold FlightManager.book_flight
          rw [hp, hf]
      | some f =>
          by_cases hs : f.is_seat_available seat = true
          · exact Or.inr ⟨p, f, rfl, rfl, hs,
              book_flight_success_eq m pid fn seat method now p f hp hf hs⟩
          · left
            have hs' : f.is_seat_available seat = false := by
              simpa using hs
            unfold FlightManager.book_flight
            rw [hp, hf]
            simp [hs']

/-! ### The reachable-state ticket invariant -/

theorem reachable_ticketInv {m : FlightManager} (h : Reachable m) :
    TicketInv m := by
  induction h with
  | init => rfl
  | add_flight f _ ih => exact ih
  | add_passenger p _ ih => exact ih
  | book_flight pid fn seat method now _ ih =>
      rename_i m' _
      rcases book_flight_cases m' pid fn seat method now with hcase |
        ⟨p, f, hp, hf, hs, hcase⟩
      · rw [hcase]
        exact ih
      · rw [hcase]
        have hfresh := ticket_fresh ih
        have htk : (bookedState m' pid fn seat method now p f).tickets =
            m'.tickets ++ [("TKT" ++ Nat.repr (m'.tickets.length + 1),
              mintedTicket m' p f seat method now)] :=
          pySet_of_absent _ _ _ hfresh
        show TicketInv (bookedState m' pid fn seat method now p f)
        unfold TicketInv
        rw [htk, List.map_append, List.length_append, ih]
        simp [ticketKeys_succ]


/-! ### Further dict and seat-map lemmas -/

theorem keys_pySet_present {α : Type} (d : List (String × α))
    (k : String) (v : α) (h : (pyGet d k).isSome) :
    (pySet d k v).map Prod.fst = d.map Prod.fst := by
  induction d with
  | nil => simp [pyGet] at h
  | cons hd tl ih =>
      obtain ⟨k', v'⟩ := hd
      by_cases h' : k' = k
      · simp [pySet, h']
      · simp [pyGet, h'] at h
        simp [pySet, h', ih h]

theorem book_seat_unavail (f : Flight) (op s : String)
    (h : f.is_seat_available s = false) :
    ((f.book_seat op).2).is_seat_available s = false := by
  unfold Flight.book_seat
  by_cases hav : f.is_seat_available op
  · by_cases hos : s = op
    · subst hos
      rw [h] at hav
      exact absurd hav (by decide)
    · simp only [hav, if_true]
      show Flight.is_seat_available _ s = false
      unfold Flight.is_seat_available pyGetD at h ⊢
      rw [pyGet_pySet_ne f.seats op s false hos]
      exact h
  · simp [hav, h]

theorem applySeatOps_unavail (f : Flight) (ops : List String) (s : String)
    (h : f.is_seat_available s = false) :
    (applySeatOps f ops).is_seat_available s = false := by
  induction ops generalizing f with
  | nil => exact h
  | cons op rest ih => exact ih _ (book_seat_unavail f op s h)

theorem book_seat_avail_eq (f : Flight) (s : String)
    (hs : f.is_seat_available s = true) :
    f.book_seat s = (true, { f with seats := pySet f.seats s false }) := by
  simp [Flight.book_seat, hs]


/-! ### Claim theorems -/

/-- C7: if the passenger id or the flight number is not a registered
key, `book_flight` returns `None` and the registry (all flights' seat
maps, all ticket histories, all collections) is left exactly as it
was. -/
theorem C7_unknown_key_no_effect (m : FlightManager)
    (pid fn seat method : String) (now : Nat)
    (h : pyGet m.passengers pid = none ∨ pyGet m.flights fn = none) :
    m.book_flight pid fn seat method now = (none, m) := by
  rcases h with h | h
  · unfold FlightManager.book_flight
    rw [h]
  · cases hp : pyGet m.passengers pid with
    | none =>
        unfold FlightManager.book_flight
        rw [hp]
    | some p =>
        unfold FlightManager.book_flight
        rw [hp, h]

/-- Witness for C7 at a concrete registry: booking with an unknown
passenger id on `mgr1` returns `None` and leaves the state unchanged. -/
theorem C7_unknown_key_no_effect_witness :
    mgr1.book_flight "P9" "FL101" "1A" "card" 0 = (none, mgr1) :=
  C7_unknown_key_no_effect mgr1 "P9" "FL101" "1A" "card" 0 (Or.inl rfl)

/-- C3: when the passenger and the flight resolve but the requested seat
is not available (which includes seat ids outside the seat map),
`book_flight` returns `None`, changes no state, and constructs no
`Payment`: the seat check precedes the payment step. -/
theorem C3_unavailable_seat_no_payment (m : FlightManager)
    (pid fn seat method : String) (now : Nat) (p : Passenger) (f : Flight)
    (hp : pyGet m.passengers pid = some p)
    (hf : pyGet m.flights fn = some f)
    (hs : f.is_seat_available seat = false) :
    m.book_flight pid fn seat method now = (none, m) ∧
    m.book_flight_payments pid fn seat method now = [] := by
  constructor
  · unfold FlightManager.book_flight
    rw [hp, hf]
    simp [hs]
  · unfold FlightManager.book_flight_payments
    rw [hp, hf]
    simp [hs]

/-- Witness for C3: on `mgr1`, booking the out-of-map seat `"99Z"`
returns `None`, leaves the state unchanged, and constructs no payment. -/
theorem C3_unavailable_seat_no_payment_witness :
    mgr1.book_flight "P1" "FL101" "99Z" "card" 0 = (none, mgr1) ∧
    mgr1.book_flight_payments "P1" "FL101" "99Z" "card" 0 = [] :=
  C3_unavailable_seat_no_payment mgr1 "P1" "FL101" "99Z" "card" 0
    pass1 flight101 rfl rfl (by decide)

/-- C10: every ticket `book_flight` ever returns has status
`"CONFIRMED"`; `Payment.process` unconditionally reports success with a
`COMPLETED` status, so the `"PENDING"` ticket status is unreachable
through the public booking operation. -/
theorem C10_ticket_always_confirmed (m : FlightManager)
    (pid fn seat method : String) (now : Nat) (t : Ticket)
    (m' : FlightManager)
    (h : m.book_flight pid fn seat method now = (some t, m')) :
    t.status = "CONFIRMED" ∧
    ∀ q : Payment, q.process.1 = true ∧
      q.process.2.status = PaymentStatus.COMPLETED := by
  refine ⟨?_, fun q => ⟨rfl, rfl⟩⟩
  rcases book_flight_cases m pid fn seat method now with hc |
    ⟨p, f, hp, hf, hs, hc⟩
  · rw [h] at hc
    exact absurd (congrArg Prod.fst hc) (by simp)
  · rw [h] at hc
    have := congrArg Prod.fst hc
    simp only [] at this
    obtain rfl : t = mintedTicket m p f seat method now := by
      simpa using this
    rfl

/-- Witness for C10: a concrete successful booking on `mgr1` yields a
`"CONFIRMED"` ticket. -/
theorem C10_ticket_always_confirmed_witness :
    (mintedTicket mgr1 pass1 flight101 "1A" "card" 0).status = "CONFIRMED" ∧
    ∀ q : Payment, q.process.1 = true ∧
      q.process.2.status = PaymentStatus.COMPLETED :=
  C10_ticket_always_confirmed mgr1 "P1" "FL101" "1A" "card" 0
    (mintedTicket mgr1 pass1 flight101 "1A" "card" 0)
    (bookedState mgr1 "P1" "FL101" "1A" "card" 0 pass1 flight101)
    (book_flight_success_eq mgr1 "P1" "FL101" "1A" "card" 0 pass1 flight101
      rfl rfl (by decide))


/-- C2: `book_flight` is all-or-nothing: for every registry state and
every argument tuple it either returns a ticket that is stored in the
registry's ticket table, or it returns `None` with the registry (seat
maps, ticket histories, ticket table) exactly as before; being a total
function, it raises no exception. -/
theorem C2_all_or_nothing (m : FlightManager)
    (pid fn seat method : String) (now : Nat) :
    (∃ t : Ticket, (m.book_flight pid fn seat method now).1 = some t ∧
      pyGet (m.book_flight pid fn seat method now).2.tickets
        t.ticket_number = some t) ∨
    m.book_flight pid fn seat method now = (none, m) := by
  rcases book_flight_cases m pid fn seat method now with h |
    ⟨p, f, hp, hf, hs, h⟩
  · exact Or.inr h
  · refine Or.inl ⟨mintedTicket m p f seat method now, by rw [h], ?_⟩
    rw [h]
    exact pyGet_pySet_self m.tickets _ _

/-- C4: `book_seat` on an available seat returns `True` and the seat is
unavailable from then on, through any further sequence of seat
operations; on a taken or unknown seat it returns `False` and changes
nothing; `is_seat_available` answers `False` (rather than failing) on
unknown seat ids. -/
theorem C4_book_seat_contract (f : Flight) (s : String) :
    (f.is_seat_available s = true →
      (f.book_seat s).1 = true ∧
      ∀ ops : List String,
        (applySeatOps (f.book_seat s).2 ops).is_seat_available s = false) ∧
    (f.is_seat_available s = false → f.book_seat s = (false, f)) ∧
    (pyGet f.seats s = none → f.is_seat_available s = false) := by
  refine ⟨fun hs => ⟨by simp [Flight.book_seat, hs], fun ops => ?_⟩,
    fun hs => by simp [Flight.book_seat, hs], fun hs => ?_⟩
  · apply applySeatOps_unavail
    rw [book_seat_avail_eq f s hs]
    show ((pyGet (pySet f.seats s false) s).getD false) = false
    rw [pyGet_pySet_self]
    rfl
  · show ((pyGet f.seats s).getD false) = false
    rw [hs]
    rfl

/-- Witness for C4: booking the available seat `"1A"` on the fresh
flight `flight101` makes it unavailable even after further seat
operations, and re-booking the taken seat fails without effect. -/
theorem C4_book_seat_contract_witness :
    (applySeatOps (flight101.book_seat "1A").2 ["1A", "2B"]
      ).is_seat_available "1A" = false ∧
    (flight101.book_seat "31Z").1 = false ∧
    flight101.is_seat_available "31Z" = false :=
  ⟨((C4_book_seat_contract flight101 "1A").1 (by decide)).2 ["1A", "2B"],
    by rw [(C4_book_seat_contract flight101 "31Z").2.1 (by decide)],
    (C4_book_seat_contract flight101 "31Z").2.2 (by decide)⟩


/-- C5: seat availability is monotone — `book_seat`, the sole seat-map
mutation of the public interface, never turns an unavailable seat back
to available, across any sequence of operations; `book_flight` changes a
registered flight only by `book_seat` applications, `add_passenger`
leaves the flight table untouched, and `add_flight` either leaves a
stored flight object unchanged or replaces the key's binding by the
newly supplied flight object (it mutates no seat map). -/
theorem C5_availability_monotone :
    (∀ (f : Flight) (op s : String), f.is_seat_available s = false →
      ((f.book_seat op).2).is_seat_available s = false) ∧
    (∀ (f : Flight) (ops : List String) (s : String),
      f.is_seat_available s = false →
      (applySeatOps f ops).is_seat_available s = false) ∧
    (∀ (m : FlightManager) (pid fn seat method : String) (now : Nat)
      (fn' : String) (f f' : Flight),
      pyGet m.flights fn' = some f →
      pyGet (m.book_flight pid fn seat method now).2.flights fn' = some f' →
      ∃ ops : List String, f' = applySeatOps f ops) ∧
    (∀ (m : FlightManager) (p : Passenger),
      (m.add_passenger p).flights = m.flights) ∧
    (∀ (m : FlightManager) (g : Flight) (fn' : String) (f f' : Flight),
      pyGet m.flights fn' = some f →
      pyGet (m.add_flight g).flights fn' = some f' → f' = f ∨ f' = g) := by
  refine ⟨book_seat_unavail, applySeatOps_unavail, ?_, fun m p => rfl, ?_⟩
  · intro m pid fn seat method now fn' f f' hf hf'
    rcases book_flight_cases m pid fn seat method now with hc |
      ⟨p, f₀, hp, hf₀, hs, hc⟩
    · rw [hc] at hf'
      refine ⟨[], ?_⟩
      rw [hf] at hf'
      exact (Option.some_injective _ hf').symm
    · rw [hc] at hf'
      by_cases hfn : fn' = fn
      · subst hfn
        rw [hf] at hf₀
        obtain rfl : f = f₀ := Option.some_injective _ hf₀
        have : pyGet (bookedState m pid fn' seat method now p f).flights fn'
            = some ((f.book_seat seat).2) := pyGet_pySet_self _ _ _
        rw [this] at hf'
        exact ⟨[seat], Option.some_injective _ hf'.symm⟩
      · have : pyGet (bookedState m pid fn seat method now p f₀).flights fn'
            = pyGet m.flights fn' := pyGet_pySet_ne _ _ _ _ hfn
        rw [this, hf] at hf'
        exact ⟨[], (Option.some_injective _ hf').symm⟩
  · intro m g fn' f f' hf hf'
    by_cases hfn : fn' = g.flight_number
    · subst hfn
      have : pyGet (m.add_flight g).flights g.flight_number = some g :=
        pyGet_pySet_self _ _ _
      rw [this] at hf'
      exact Or.inr (Option.some_injective _ hf'.symm)
    · have : pyGet (m.add_flight g).flights fn' = pyGet m.flights fn' :=
        pyGet_pySet_ne _ _ _ _ hfn
      rw [this, hf] at hf'
      exact Or.inl (Option.some_injective _ hf'.symm)

/-- Witness for C5: once `"1A"` is booked on `flight101`, it stays
unavailable across a further sequence of seat operations. -/
theorem C5_availability_monotone_witness :
    (applySeatOps (flight101.book_seat "1A").2 ["2B", "1A", "3C"]
      ).is_seat_available "1A" = false :=
  C5_availability_monotone.2.1 (flight101.book_seat "1A").2
    ["2B", "1A", "3C"] "1A" (by decide)


set_option maxRecDepth 8192 in
set_option maxHeartbeats 2000000 in
/-- C6: every newly created flight's seat map has exactly 180 entries,
all initially available, with pairwise distinct keys, containing the key
`"{row}{letter}"` for every row in 1..30 and letter in A–F, and no
other keys. -/
theorem C6_seat_map_complete (fn : String) (o d : Airport) (dep arr : Nat) :
    (Flight.make fn o d dep arr).seats.length = 180 ∧
    (∀ kv ∈ (Flight.make fn o d dep arr).seats, kv.2 = true) ∧
    ((Flight.make fn o d dep arr).seats.map Prod.fst).Nodup ∧
    (∀ r ∈ List.range' 1 30, ∀ l ∈ seatLetters,
      pyGet (Flight.make fn o d dep arr).seats (Nat.repr r ++ l)
        = some true) ∧
    (∀ kv ∈ (Flight.make fn o d dep arr).seats,
      ∃ r ∈ List.range' 1 30, ∃ l ∈ seatLetters,
        kv.1 = Nat.repr r ++ l) := by
  have h1 : initialize_seats.length = 180 := by decide
  have h2 : ∀ kv ∈ initialize_seats, kv.2 = true := by decide
  have h3 : (initialize_seats.map Prod.fst).Nodup := by decide
  have h4 : ∀ r ∈ List.range' 1 30, ∀ l ∈ seatLetters,
      pyGet initialize_seats (Nat.repr r ++ l) = some true := by decide
  have h5 : ∀ kv ∈ initialize_seats,
      ∃ r ∈ List.range' 1 30, ∃ l ∈ seatLetters,
        kv.1 = Nat.repr r ++ l := by decide
  exact ⟨h1, h2, h3, h4, h5⟩

set_option maxRecDepth 8192 in
set_option maxHeartbeats 2000000 in
/-- Witness for C6: the seat map of a freshly created flight has 180
seats and seat `"12C"` is present and available. -/
theorem C6_seat_map_complete_witness :
    (Flight.make "FL200" jfk lhr 0 0).seats.length = 180 ∧
    pyGet (Flight.make "FL200" jfk lhr 0 0).seats (Nat.repr 12 ++ "C")
      = some true :=
  ⟨(C6_seat_map_complete "FL200" jfk lhr 0 0).1,
    (C6_seat_map_complete "FL200" jfk lhr 0 0).2.2.2.1 12 (by decide)
      "C" (by decide)⟩

/-- C8: `search_flights` returns exactly the registered flights whose
origin and destination cities match case-insensitively, in registry
(insertion) order, and the empty list when nothing matches. -/
theorem C8_search_flights_exact (m : FlightManager)
    (origin_city destination_city : String) :
    (∀ f : Flight,
      f ∈ m.search_flights origin_city destination_city ↔
        f ∈ m.flights.map Prod.snd ∧
        pyLower f.origin.city = pyLower origin_city ∧
        pyLower f.destination.city = pyLower destination_city) ∧
    List.Sublist (m.search_flights origin_city destination_city)
      (m.flights.map Prod.snd) ∧
    ((∀ f ∈ m.flights.map Prod.snd,
        ¬(pyLower f.origin.city = pyLower origin_city ∧
          pyLower f.destination.city = pyLower destination_city)) →
      m.search_flights origin_city destination_city = []) := by
  refine ⟨fun f => ?_, List.filter_sublist _, fun h => ?_⟩
  · simp [FlightManager.search_flights, List.mem_filter, and_assoc]
  · apply List.filter_eq_nil_iff.mpr
    intro f hf
    simpa using h f hf

set_option maxRecDepth 8192 in
set_option maxHeartbeats 2000000 in
/-- Witness for C8: on `mgr1`, searching `"new york" → "LONDON"` finds
`flight101` case-insensitively, and a route with no flights yields the
empty list. -/
theorem C8_search_flights_exact_witness :
    flight101 ∈ mgr1.search_flights "new york" "LONDON" ∧
    mgr1.search_flights "Paris" "Dubai" = [] :=
  ⟨((C8_search_flights_exact mgr1 "new york" "LONDON").1 flight101).mpr
      ⟨by decide, by decide, by decide⟩,
    (C8_search_flights_exact mgr1 "Paris" "Dubai").2.2 (by decide)⟩


/-- C1: when the passenger and flight resolve and the seat is available,
`book_flight` on a reachable registry returns a ticket with status
`"CONFIRMED"` and the requested seat number, stored in the ticket table
under its ticket number, appended to that passenger's history, and its
ticket number was never issued before. -/
theorem C1_successful_booking (m : FlightManager)
    (pid fn seat method : String) (now : Nat) (p : Passenger) (f : Flight)
    (hm : Reachable m)
    (hp : pyGet m.passengers pid = some p)
    (hf : pyGet m.flights fn = some f)
    (hs : f.is_seat_available seat = true) :
    ∃ t : Ticket,
      (m.book_flight pid fn seat method now).1 = some t ∧
      t.status = "CONFIRMED" ∧
      t.seat_number = seat ∧
      pyGet (m.book_flight pid fn seat method now).2.tickets
        t.ticket_number = some t ∧
      pyGet (m.book_flight pid fn seat method now).2.passengers pid
        = some (p.add_ticket t) ∧
      pyGet m.tickets t.ticket_number = none := by
  have hbe := book_flight_success_eq m pid fn seat method now p f hp hf hs
  refine ⟨mintedTicket m p f seat method now, by rw [hbe], rfl, rfl,
    ?_, ?_, ?_⟩
  · rw [hbe]
    exact pyGet_pySet_self m.tickets _ _
  · rw [hbe]
    exact pyGet_pySet_self m.passengers _ _
  · exact ticket_fresh (reachable_ticketInv hm)

/-- Witness for C1: booking seat `"1A"` on `mgr1` (a registry built by
the public interface) succeeds with all the promised properties. -/
theorem C1_successful_booking_witness :
    ∃ t : Ticket,
      (mgr1.book_flight "P1" "FL101" "1A" "card" 0).1 = some t ∧
      t.status = "CONFIRMED" ∧
      t.seat_number = "1A" ∧
      pyGet (mgr1.book_flight "P1" "FL101" "1A" "card" 0).2.tickets
        t.ticket_number = some t ∧
      pyGet (mgr1.book_flight "P1" "FL101" "1A" "card" 0).2.passengers "P1"
        = some (pass1.add_ticket t) ∧
      pyGet mgr1.tickets t.ticket_number = none :=
  C1_successful_booking mgr1 "P1" "FL101" "1A" "card" 0 pass1 flight101
    (Reachable.add_passenger pass1
      (Reachable.add_flight flight101 Reachable.init))
    rfl rfl (by decide)


/-- C9: a successful `book_flight` changes exactly the booked seat of
the resolved flight, one new ticket-table entry, and one appended ticket
in the resolved passenger's history; every other seat, flight,
passenger and the key sets of the flight and passenger tables are
untouched. -/
theorem C9_success_frame (m : FlightManager)
    (pid fn seat method : String) (now : Nat) (p : Passenger) (f : Flight)
    (hm : Reachable m)
    (hp : pyGet m.passengers pid = some p)
    (hf : pyGet m.flights fn = some f)
    (hs : f.is_seat_available seat = true) :
    ∃ t : Ticket,
      (m.book_flight pid fn seat method now).1 = some t ∧
      (∀ fn', fn' ≠ fn →
        pyGet (m.book_flight pid fn seat method now).2.flights fn'
          = pyGet m.flights fn') ∧
      (∃ f', pyGet (m.book_flight pid fn seat method now).2.flights fn
          = some f' ∧
        f'.is_seat_available seat = false ∧
        (∀ s', s' ≠ seat →
          f'.is_seat_available s' = f.is_seat_available s') ∧
        f'.flight_number = f.flight_number ∧ f'.origin = f.origin ∧
        f'.destination = f.destination ∧
        f'.departure_time = f.departure_time ∧
        f'.arrival_time = f.arrival_time) ∧
      (∀ pid', pid' ≠ pid →
        pyGet (m.book_flight pid fn seat method now).2.passengers pid'
          = pyGet m.passengers pid') ∧
      pyGet (m.book_flight pid fn seat method now).2.passengers pid
        = some (p.add_ticket t) ∧
      (∀ k, k ≠ t.ticket_number →
        pyGet (m.book_flight pid fn seat method now).2.tickets k
          = pyGet m.tickets k) ∧
      (m.book_flight pid fn seat method now).2.tickets.length
        = m.tickets.length + 1 ∧
      (m.book_flight pid fn seat method now).2.flights.map Prod.fst
        = m.flights.map Prod.fst ∧
      (m.book_flight pid fn seat method now).2.passengers.map Prod.fst
        = m.passengers.map Prod.fst := by
  have hbe := book_flight_success_eq m pid fn seat method now p f hp hf hs
  have hbs := book_seat_avail_eq f seat hs
  refine ⟨mintedTicket m p f seat method now, by rw [hbe],
    fun fn' hne => by rw [hbe]; exact pyGet_pySet_ne _ _ _ _ hne,
    ⟨(f.book_seat seat).2, by rw [hbe]; exact pyGet_pySet_self _ _ _,
      ?_, ?_, by rw [hbs], by rw [hbs], by rw [hbs], by rw [hbs],
      by rw [hbs]⟩,
    fun pid' hne => by rw [hbe]; exact pyGet_pySet_ne _ _ _ _ hne,
    by rw [hbe]; exact pyGet_pySet_self _ _ _,
    fun k hk => by rw [hbe]; exact pyGet_pySet_ne _ _ _ _ hk,
    ?_, ?_, ?_⟩
  · rw [hbs]
    show (pyGet (pySet f.seats seat false) seat).getD false = false
    rw [pyGet_pySet_self]
    rfl
  · intro s' hne
    rw [hbs]
    show (pyGet (pySet f.seats seat false) s').getD false
      = (pyGet f.seats s').getD false
    rw [pyGet_pySet_ne _ _ _ _ hne]
  · rw [hbe]
    exact length_pySet_absent _ _ _ (ticket_fresh (reachable_ticketInv hm))
  · rw [hbe]
    exact keys_pySet_present _ _ _ (by simp [hf])
  · rw [hbe]
    exact keys_pySet_present _ _ _ (by simp [hp])

/-- Witness for C9: the frame condition at the concrete booking of seat
`"1A"` on `mgr1`. -/
theorem C9_success_frame_witness :
    ∃ t : Ticket,
      (mgr1.book_flight "P1" "FL101" "1A" "card" 0).1 = some t ∧
      (∀ fn', fn' ≠ "FL101" →
        pyGet (mgr1.book_flight "P1" "FL101" "1A" "card" 0).2.flights fn'
          = pyGet mgr1.flights fn') ∧
      (∃ f', pyGet (mgr1.book_flight "P1" "FL101" "1A" "card" 0).2.flights
          "FL101" = some f' ∧
        f'.is_seat_available "1A" = false ∧
        (∀ s', s' ≠ "1A" →
          f'.is_seat_available s' = flight101.is_seat_available s') ∧
        f'.flight_number = flight101.flight_number ∧
        f'.origin = flight101.origin ∧
        f'.destination = flight101.destination ∧
        f'.departure_time = flight101.departure_time ∧
        f'.arrival_time = flight101.arrival_time) ∧
      (∀ pid', pid' ≠ "P1" →
        pyGet (mgr1.book_flight "P1" "FL101" "1A" "card" 0).2.passengers
          pid' = pyGet mgr1.passengers pid') ∧
      pyGet (mgr1.book_flight "P1" "FL101" "1A" "card" 0).2.passengers "P1"
        = some (pass1.add_ticket t) ∧
      (∀ k, k ≠ t.ticket_number →
        pyGet (mgr1.book_flight "P1" "FL101" "1A" "card" 0).2.tickets k
          = pyGet mgr1.tickets k) ∧
      (mgr1.book_flight "P1" "FL101" "1A" "card" 0).2.tickets.length
        = mgr1.tickets.length + 1 ∧
      (mgr1.book_flight "P1" "FL101" "1A" "card" 0).2.flights.map Prod.fst
        = mgr1.flights.map Prod.fst ∧
      (mgr1.book_flight "P1" "FL101" "1A" "card" 0).2.passengers.map
        Prod.fst = mgr1.passengers.map Prod.fst :=
  C9_success_frame mgr1 "P1" "FL101" "1A" "card" 0 pass1 flight101
    (Reachable.add_passenger pass1
      (Reachable.add_flight flight101 Reachable.init))
    rfl rfl (by decide)

end FlightBooking
